import Mathlib

/-
Verification of the Fortify report extension data-acquisition core:
a shallow embedding of the provider layer (SSC and FoD), its
authentication strategies, classification mappings, pagination loops
and name-resolution logic, with theorems settling the spec claims.

Network requests are modelled by oracle parameters: each embedded
operation takes the response value (an Except: a rejected request is
an error, a fulfilled one carries the parsed JSON shape) that the
corresponding makeRequest call would produce.  JavaScript string
truthiness (empty string is falsy) is modelled explicitly.
-/

/-- JavaScript a || b on strings: the empty string is falsy. -/
def jsOrStr (a b : String) : String := if a = "" then b else a

/-- JavaScript truthiness of an optional string field (undefined or empty are falsy). -/
def jsTruthyOptStr : Option String → Bool
  | none => false
  | some s => !(s == "")

/-- Does the first character list start with the second. -/
def charListHasPre : List Char → List Char → Bool
  | _, [] => true
  | [], _ :: _ => false
  | a :: as, b :: bs => a == b && charListHasPre as bs

/-- Substring search on character lists. -/
def charListContains (pat : List Char) : List Char → Bool
  | [] => charListHasPre [] pat
  | c :: cs => charListHasPre (c :: cs) pat || charListContains pat cs

/-- JavaScript String.prototype.includes: substring containment. -/
def strContains (s pat : String) : Bool := charListContains pat.toList s.toList

/-- JavaScript String.prototype.replace with a plain-string pattern:
replaces only the first occurrence. -/
def replaceFirst (s pat rep : String) : String :=
  match s.splitOn pat with
  | [] => s
  | [x] => x
  | x :: xs => x ++ rep ++ String.intercalate pat xs

/-- JavaScript s.replace of a single trailing slash with the empty string. -/
def stripTrailingSlash (s : String) : String :=
  if s.endsWith ("/") then s.dropRight 1 else s

/-- src/types/fortify-types.ts: enum FortifyProviderType. -/
inductive FortifyProviderType
  | SSC
  | FoD
deriving DecidableEq

/-- src/types/fortify-types.ts: interface ValidationResult.
Fields in source order: success, applicationId, versionId, error, provider. -/
structure ValidationResult where
  success : Bool
  applicationId : Option String
  versionId : Option String
  error : Option String
  provider : FortifyProviderType
deriving DecidableEq

/-- src/types/fortify-types.ts: interface SecurityIssue.
Fields in source order.  The opaque rawData passthrough (diagnostics only,
never read by the embedded logic) is omitted. -/
structure SecurityIssue where
  id : String
  instanceId : String
  name : String
  severity : String
  priority : String
  likelihood : String
  confidence : String
  primaryLocation : String
  lineNumber : Int
  kingdom : String
  category : String
  priority_score : Int
  folderGuid : String
  folderId : Nat
  folderName : String
  folderColor : String
  provider : FortifyProviderType
deriving DecidableEq

/-- src/types/fortify-types.ts: interface ReportData. -/
structure ReportData where
  issues : List SecurityIssue
  appName : String
  appVersion : String
  scanDate : String
  totalCount : Nat
  projectVersionId : Option String
  provider : FortifyProviderType
  providerUrl : Option String
deriving DecidableEq

deriving instance DecidableEq for Except

/-- Shared User-Agent header value of both auth strategies. -/
def userAgentStr : String := "Azure-DevOps-Fortify-Extension/13.0.0"

/-- Accept header value. -/
def acceptJsonStr : String := "application/json"

/-- src/auth/authentication-strategies.ts, SSCTokenAuthStrategy.getAuthHeaders:
builds the header set directly from the stored ciToken.  The source method
contains no throw, so the embedding is a total function: it succeeds even
when the token is empty and no authenticate() ever ran. -/
def SSCTokenAuthStrategy.getAuthHeaders (ciToken : String) : List (String × String) :=
  [(("Authorization"), ("FortifyToken ") ++ ciToken),
   (("Accept"), acceptJsonStr),
   (("User-Agent"), userAgentStr)]

/-- src/auth/authentication-strategies.ts, SSCTokenAuthStrategy.authenticate:
throws when the constructor-supplied token is empty, otherwise does nothing. -/
def SSCTokenAuthStrategy.authenticate (ciToken : String) : Except String Unit :=
  if ciToken = "" then Except.error ("CI Token is required for SSC authentication")
  else Except.ok ()

/-- src/auth/authentication-strategies.ts, SSCTokenAuthStrategy.isValid. -/
def SSCTokenAuthStrategy.isValid (ciToken : String) : Bool := !(ciToken == "")

/-- Mutable state of FoDApiKeyAuthStrategy: constructor credentials plus the
optional established token material (accessToken, tokenExpiry as a timestamp
in milliseconds).  A missing field is none; the Date object of the source is
its millisecond value. -/
structure FoDAuthState where
  apiKey : String
  apiSecret : String
  accessToken : Option String
  tokenExpiry : Option Int
deriving DecidableEq

/-- FoDApiKeyAuthStrategy constructor: credentials stored, no token established. -/
def FoDApiKeyAuthStrategy.mk0 (apiKey apiSecret : String) : FoDAuthState :=
  ⟨apiKey, apiSecret, none, none⟩

/-- src/auth/authentication-strategies.ts: private readonly tokenBuffer
= 5 * 60 * 1000 (5 minutes, in milliseconds). -/
def FoDApiKeyAuthStrategy.tokenBuffer : Int := 5 * 60 * 1000

/-- Error thrown by FoDApiKeyAuthStrategy.getAuthHeaders without a token. -/
def fodNotAuthenticatedMsg : String := "Not authenticated. Call authenticate() first."

/-- src/auth/authentication-strategies.ts, FoDApiKeyAuthStrategy.getAuthHeaders:
throws unless an access token is established (JavaScript truthiness: an empty
stored token also throws). -/
def FoDApiKeyAuthStrategy.getAuthHeaders (st : FoDAuthState) :
    Except String (List (String × String)) :=
  match st.accessToken with
  | none => Except.error fodNotAuthenticatedMsg
  | some tok =>
    if tok = "" then Except.error fodNotAuthenticatedMsg
    else
      Except.ok [(("Authorization"), ("Bearer ") ++ tok),
                 (("Accept"), acceptJsonStr),
                 (("User-Agent"), userAgentStr)]

/-- src/auth/authentication-strategies.ts, FoDApiKeyAuthStrategy.authenticate.
tokenResp is the outcome of the OAuth2 client-credentials POST
(access_token, expires_in seconds); now is Date.now() in milliseconds. -/
def FoDApiKeyAuthStrategy.authenticate (st : FoDAuthState)
    (tokenResp : Except String (String × Int)) (now : Int) : Except String FoDAuthState :=
  if st.apiKey = "" ∨ st.apiSecret = "" then
    Except.error ("API Key and Secret are required for FoD authentication")
  else
    match tokenResp with
    | Except.error e => Except.error (("FoD authentication failed: ") ++ e)
    | Except.ok td =>
      Except.ok ⟨st.apiKey, st.apiSecret, some td.1, some (now + td.2 * 1000)⟩

/-- src/auth/authentication-strategies.ts, FoDApiKeyAuthStrategy.isValid:
false without token material, else true exactly while now is strictly
before the stored expiry minus the 5-minute buffer. -/
def FoDApiKeyAuthStrategy.isValid (st : FoDAuthState) (now : Int) : Bool :=
  match st.accessToken, st.tokenExpiry with
  | some tok, some expiry =>
    if tok = "" then false
    else decide (now < expiry - FoDApiKeyAuthStrategy.tokenBuffer)
  | _, _ => false

/-- The fields of Partial FortifyConfig read by detectProviderType.
Fields not read there (baseUrl, appName, ...) are omitted. -/
structure PartialFortifyConfig where
  providerType : Option FortifyProviderType
  ciToken : Option String
  apiKey : Option String
  apiSecret : Option String
deriving DecidableEq

/-- src/providers/fortify-provider-factory.ts,
FortifyProviderFactory.detectProviderType: explicit kind wins, then a CI
token forces SSC, then a complete FoD key pair gives FoD, else SSC. -/
def FortifyProviderFactory.detectProviderType (config : PartialFortifyConfig) :
    FortifyProviderType :=
  match config.providerType with
  | some pt => pt
  | none =>
    if jsTruthyOptStr config.ciToken then FortifyProviderType.SSC
    else if jsTruthyOptStr config.apiKey && jsTruthyOptStr config.apiSecret then
      FortifyProviderType.FoD
    else FortifyProviderType.SSC

/-- src/providers/fortify-fod-provider.ts, mapConfidenceToString.
Raw scores are modelled as rationals; the threshold literals 4.0 and 2.5
are exact in binary floating point, so the comparisons agree. -/
def FortifyFoDProvider.mapConfidenceToString (confidence : Rat) : String :=
  if 4 ≤ confidence then "High"
  else if 5/2 ≤ confidence then "Medium"
  else "Low"

/-- src/providers/fortify-fod-provider.ts, mapLikelihoodToString. -/
def FortifyFoDProvider.mapLikelihoodToString (likelihood : Rat) : String :=
  if 7/10 ≤ likelihood then "Likely"
  else if 3/10 ≤ likelihood then "Possible"
  else "Unlikely"

/-- FortifySSCProvider.mapConfidenceToString (src/unnamed/part_003): the
source accepts string or number and first parses strings with parseFloat;
the numeric path is embedded. -/
def FortifySSCProvider.mapConfidenceToString (confidence : Rat) : String :=
  if 4 ≤ confidence then "High"
  else if 5/2 ≤ confidence then "Medium"
  else "Low"

/-- FortifySSCProvider.mapLikelihoodToString (src/unnamed/part_003),
numeric path as above. -/
def FortifySSCProvider.mapLikelihoodToString (likelihood : Rat) : String :=
  if 7/10 ≤ likelihood then "Likely"
  else if 3/10 ≤ likelihood then "Possible"
  else "Unlikely"

/-- src/providers/fortify-fod-provider.ts: interface FoDVulnerability,
restricted to the fields read by the embedded operations (the remaining
fields of the TypeScript interface are never read by them).  An absent
optional string field (vulnInstanceId) is the empty string, which the
source treats identically through JavaScript truthiness. -/
structure FoDVulnerability where
  id : Nat
  vulnId : String
  vulnInstanceId : String
  kingdom : String
  category : String
  subCategory : String
  fileName : String
  primaryLocationFull : String
  shortFileName : String
  lineNumber : Int
  confidence : Rat
  likelihood : Rat
  severityString : String
  priorityOrder : Int
deriving DecidableEq

/-- src/providers/fortify-fod-provider.ts: interface FoDApplication,
fields read by the embedded operations. -/
structure FoDApplication where
  applicationId : Nat
  applicationName : String
deriving DecidableEq

/-- src/providers/fortify-fod-provider.ts: interface FoDRelease,
fields read by the embedded operations. -/
structure FoDRelease where
  releaseId : Nat
  releaseName : String
deriving DecidableEq

/-- src/providers/fortify-fod-provider.ts, getSeverityColor. -/
def FortifyFoDProvider.getSeverityColor (severity : String) : String :=
  let s := severity.toLower
  if s = ("critical") then ("ed1c24")
  else if s = ("high") then ("ff7800")
  else if s = ("medium") then ("f6aa58")
  else if s = ("low") then ("eec845")
  else ("666666")

/-- src/providers/fortify-fod-provider.ts, getSeverityId. -/
def FortifyFoDProvider.getSeverityId (severity : String) : Nat :=
  let s := severity.toLower
  if s = ("critical") then 1
  else if s = ("high") then 2
  else if s = ("medium") then 3
  else if s = ("low") then 4
  else 0

/-- src/providers/fortify-fod-provider.ts, mapFoDVulnToSecurityIssue.
Field by field as in the source; vuln.likelihood || 0 and
vuln.confidence || 0 are the identity on rationals (0 || 0 is 0), and
vuln.lineNumber || 0 likewise on integers. -/
def FortifyFoDProvider.mapFoDVulnToSecurityIssue (vuln : FoDVulnerability) : SecurityIssue :=
  let severity := jsOrStr vuln.severityString ("Unknown")
  let severityColor := FortifyFoDProvider.getSeverityColor severity
  let fileLocation := jsOrStr vuln.primaryLocationFull (jsOrStr vuln.fileName vuln.shortFileName)
  let primaryLocation :=
    if fileLocation ≠ "" then
      if 0 < vuln.lineNumber then fileLocation ++ (":") ++ toString vuln.lineNumber
      else fileLocation
    else
      if 0 < vuln.lineNumber then (":") ++ toString vuln.lineNumber
      else ""
  ⟨toString vuln.id,                                   -- id: numeric ID, used for URL generation
   jsOrStr vuln.vulnInstanceId vuln.vulnId,            -- instanceId: UUID fallback
   jsOrStr vuln.category (jsOrStr vuln.subCategory ("Unknown Issue")),  -- name
   severity,                                           -- severity
   severity,                                           -- priority
   FortifyFoDProvider.mapLikelihoodToString vuln.likelihood,
   FortifyFoDProvider.mapConfidenceToString vuln.confidence,
   primaryLocation,
   vuln.lineNumber,
   vuln.kingdom,
   jsOrStr vuln.category ("Uncategorized"),            -- category
   vuln.priorityOrder,                                 -- priority_score
   "",                                                 -- folderGuid: FoD does not use folder GUIDs
   FortifyFoDProvider.getSeverityId severity,          -- folderId
   severity,                                           -- folderName
   severityColor,                                      -- folderColor
   FortifyProviderType.FoD⟩

/-- src/providers/fortify-fod-provider.ts, web-UI base URL shared by
generateProjectUrl and generateIssueUrl: each replace call rewrites only
the first occurrence, then a trailing slash is stripped. -/
def FortifyFoDProvider.webUrl (baseUrl : String) : String :=
  stripTrailingSlash (replaceFirst (replaceFirst (replaceFirst baseUrl ("api.") ("")) ("/api") ("")) ("/v3") (""))

/-- src/providers/fortify-fod-provider.ts, generateProjectUrl. -/
def FortifyFoDProvider.generateProjectUrl (baseUrl applicationId releaseId : String) : String :=
  FortifyFoDProvider.webUrl baseUrl ++ ("/Releases/") ++ releaseId

/-- src/providers/fortify-fod-provider.ts, generateIssueUrl. -/
def FortifyFoDProvider.generateIssueUrl (baseUrl applicationId releaseId vulnId : String) : String :=
  FortifyFoDProvider.webUrl baseUrl ++ ("/Releases/") ++ releaseId ++ ("/Issues/") ++ vulnId

/-- One parsed response of the FoD vulnerabilities endpoint: the items
array (absent when the body has no items key) and the optional
totalCount (only logged by the source, never used for control flow). -/
structure FoDVulnPage where
  items : Option (List FoDVulnerability)
  totalCount : Option Nat
deriving DecidableEq

/-- The error message fetchAllVulnerabilities rethrows when the page
request at a given offset fails. -/
def fodOffsetErrMsg (offset : Nat) (msg : String) : String :=
  ("Failed to fetch vulnerabilities at offset ") ++ toString offset ++ (": ") ++ msg

/-- src/providers/fortify-fod-provider.ts, the while loop of
fetchAllVulnerabilities.  pages maps an offset to the makeRequest outcome
for that page (limit is the constant 50).  The fuel argument only bounds
recursion depth: the caller passes maxIssues + 1, which the loop can never
exhaust because every continuing iteration adds a full page of 50 issues
while the accumulator is below maxIssues. -/
def FortifyFoDProvider.fetchVulnsLoop
    (pages : Nat → Except String (Option FoDVulnPage)) (maxIssues : Nat) :
    Nat → List SecurityIssue → Nat → Except String (List SecurityIssue)
  | 0, acc, _ => Except.ok acc
  | Nat.succ fuel, acc, offset =>
    if maxIssues ≤ acc.length then Except.ok acc
    else
      match pages offset with
      | Except.error msg => Except.error (fodOffsetErrMsg offset msg)
      | Except.ok none => Except.ok acc
      | Except.ok (some page) =>
        match page.items with
        | none => Except.ok acc
        | some items =>
          if items.length = 0 then Except.ok acc
          else
            let acc2 := acc ++ items.map FortifyFoDProvider.mapFoDVulnToSecurityIssue
            if maxIssues ≤ acc2.length then Except.ok acc2
            else if items.length < 50 then Except.ok acc2
            else FortifyFoDProvider.fetchVulnsLoop pages maxIssues fuel acc2 (offset + 50)

/-- src/providers/fortify-fod-provider.ts, fetchAllVulnerabilities:
run the pagination loop from an empty accumulator at offset 0 and cap
the successful result with slice(0, maxIssues). -/
def FortifyFoDProvider.fetchAllVulnerabilities
    (pages : Nat → Except String (Option FoDVulnPage)) (maxIssues : Nat) :
    Except String (List SecurityIssue) :=
  (FortifyFoDProvider.fetchVulnsLoop pages maxIssues (maxIssues + 1) [] 0).map
    (fun l => l.take maxIssues)

/-- The default of the maxIssues parameter of fetchReportData in both
providers (maxIssues: number = 10000). -/
def defaultMaxIssues : Nat := 10000

/-- Joined name list used in diagnostic messages (join with a comma). -/
def joinNames (names : List String) : String := String.intercalate (", ") names

/-- FoD validate: application not found. -/
def fodAppNotFoundMsg (appName : String) : String :=
  ("Application \"") ++ appName ++ ("\" not found in Fortify on Demand")

/-- FoD fetchReportData: application not found (short form). -/
def fodAppNotFoundShortMsg (appName : String) : String :=
  ("Application \"") ++ appName ++ ("\" not found")

/-- FoD: no exact application-name match among the search results. -/
def fodNoExactAppMsg (appName : String) (apps : List FoDApplication) : String :=
  ("Exact application name \"") ++ appName ++ ("\" not found. Did you mean: ")
    ++ joinNames (apps.map (fun a => a.applicationName)) ++ ("?")

/-- FoD: no exact release-name match among the search results. -/
def fodNoExactRelMsg (appVersion : String) (rels : List FoDRelease) : String :=
  ("Exact release name \"") ++ appVersion ++ ("\" not found. Did you mean: ")
    ++ joinNames (rels.map (fun r => r.releaseName)) ++ ("?")

/-- FoD fetchReportData: release not found (short form). -/
def fodRelNotFoundShortMsg (appVersion : String) : String :=
  ("Release \"") ++ appVersion ++ ("\" not found")

/-- FoD validate: wrapper of errors caught by the surrounding try/catch. -/
def fodValidationFailedMsg (e : String) : String := ("Validation failed: ") ++ e

/-- FoD validate, release-not-found path: best-effort enumeration of the
available releases through a second request (allRelResp); its failure is
swallowed and replaced by a generic message. -/
def fodReleaseNotFoundResult (appName appVersion : String)
    (allRelResp : Except String (Option (List FoDRelease))) : ValidationResult :=
  match allRelResp with
  | Except.error _ =>
    ⟨false, none, none,
     some (("Release \"") ++ appVersion ++ ("\" not found for application \"") ++ appName ++ ("\"")),
     FortifyProviderType.FoD⟩
  | Except.ok none =>
    ⟨false, none, none,
     some (("Release \"") ++ appVersion ++ ("\" not found. Available releases: ") ++ ("none")),
     FortifyProviderType.FoD⟩
  | Except.ok (some rels) =>
    ⟨false, none, none,
     some (("Release \"") ++ appVersion ++ ("\" not found. Available releases: ")
       ++ jsOrStr (joinNames (rels.map (fun r => r.releaseName))) ("none")),
     FortifyProviderType.FoD⟩

/-- src/providers/fortify-fod-provider.ts, validateApplicationAndVersion.
appResp / relResp / allRelResp are the makeRequest outcomes of the
application search, the release search of the resolved application, and
the unfiltered release enumeration.  The search endpoints do partial
matching, so an exact find over the returned items decides resolution. -/
def FortifyFoDProvider.validateApplicationAndVersion (appName appVersion : String)
    (appResp : Except String (Option (List FoDApplication)))
    (relResp : Nat → Except String (Option (List FoDRelease)))
    (allRelResp : Nat → Except String (Option (List FoDRelease))) : ValidationResult :=
  match appResp with
  | Except.error e =>
    ⟨false, none, none, some (fodValidationFailedMsg e), FortifyProviderType.FoD⟩
  | Except.ok none =>
    ⟨false, none, none, some (fodAppNotFoundMsg appName), FortifyProviderType.FoD⟩
  | Except.ok (some apps) =>
    if apps.length = 0 then
      ⟨false, none, none, some (fodAppNotFoundMsg appName), FortifyProviderType.FoD⟩
    else
      match apps.find? (fun app => app.applicationName == appName) with
      | none =>
        ⟨false, none, none, some (fodNoExactAppMsg appName apps), FortifyProviderType.FoD⟩
      | some app =>
        match relResp app.applicationId with
        | Except.error e =>
          ⟨false, none, none, some (fodValidationFailedMsg e), FortifyProviderType.FoD⟩
        | Except.ok none =>
          fodReleaseNotFoundResult appName appVersion (allRelResp app.applicationId)
        | Except.ok (some rels) =>
          if rels.length = 0 then
            fodReleaseNotFoundResult appName appVersion (allRelResp app.applicationId)
          else
            match rels.find? (fun rel => rel.releaseName == appVersion) with
            | none =>
              ⟨false, none, none, some (fodNoExactRelMsg appVersion rels), FortifyProviderType.FoD⟩
            | some rel =>
              ⟨true, some (toString app.applicationId), some (toString rel.releaseId),
               none, FortifyProviderType.FoD⟩

/-- src/providers/fortify-fod-provider.ts, fetchReportData: resolve the
application and release by exact match among partial-match search results
(throwing on failure), then paginate the vulnerabilities; any error
propagates and no ReportData is produced. -/
def FortifyFoDProvider.fetchReportData (baseUrl appName appVersion : String)
    (appResp : Except String (Option (List FoDApplication)))
    (relResp : Nat → Except String (Option (List FoDRelease)))
    (pages : Nat → Except String (Option FoDVulnPage))
    (scanDate : String) (maxIssues : Nat) : Except String ReportData :=
  match appResp with
  | Except.error e => Except.error e
  | Except.ok none => Except.error (fodAppNotFoundShortMsg appName)
  | Except.ok (some apps) =>
    if apps.length = 0 then Except.error (fodAppNotFoundShortMsg appName)
    else
      match apps.find? (fun app => app.applicationName == appName) with
      | none => Except.error (fodNoExactAppMsg appName apps)
      | some app =>
        match relResp app.applicationId with
        | Except.error e => Except.error e
        | Except.ok none => Except.error (fodRelNotFoundShortMsg appVersion)
        | Except.ok (some rels) =>
          if rels.length = 0 then Except.error (fodRelNotFoundShortMsg appVersion)
          else
            match rels.find? (fun rel => rel.releaseName == appVersion) with
            | none => Except.error (fodNoExactRelMsg appVersion rels)
            | some rel =>
              match FortifyFoDProvider.fetchAllVulnerabilities pages maxIssues with
              | Except.error e => Except.error e
              | Except.ok allVulns =>
                Except.ok ⟨allVulns, appName, appVersion, scanDate, allVulns.length,
                           some (toString rel.releaseId), FortifyProviderType.FoD,
                           some baseUrl⟩

/-- One entry of an SSC projects or versions search response: the source
reads only the id of the first entry, never comparing the entry name
against the requested one.  The name field carried by the backend entry is
kept so that theorems can speak about exact and non-exact matches. -/
structure SSCNamedEntity where
  id : Nat
  name : String
deriving DecidableEq

/-- One SSC filter set as returned by the filterSets endpoint. -/
structure FilterSet where
  title : String
  defaultFilterSet : Bool
  guid : String
deriving DecidableEq

/-- src/unnamed/part_003: interface SSCIssue, restricted to the fields read
by the embedded operations.  The optional likelihood and confidence strings
are modelled by their parsed numeric values (parseFloat), none when absent
(the source then substitutes the string "0", which parses to 0). -/
structure SSCIssue where
  id : String
  issueInstanceId : String
  issueName : String
  likelihood : Option Rat
  confidence : Option Rat
  primaryLocation : String
  lineNumber : Int
  kingdom : String
  category : String
  friority : Int
  folderGuid : String
  fileName : String
deriving DecidableEq

/-- Folder metadata of the hardcoded Security Auditor View mapping. -/
structure FolderInfo where
  name : String
  color : String
  id : Nat
deriving DecidableEq

/-- src/unnamed/part_003: the hardcoded SECURITY_AUDITOR_FOLDERS map from
the four well-known folder GUIDs to name, color and ordinal. -/
def SECURITY_AUDITOR_FOLDERS (guid : String) : Option FolderInfo :=
  if guid = ("b968f72f-cc12-03b5-976e-ad4c13920c21") then some ⟨("Critical"), ("ed1c24"), 1⟩
  else if guid = ("5b50bb77-071d-08ed-fdba-1213fa90ac5a") then some ⟨("High"), ("ff7800"), 2⟩
  else if guid = ("d5f55910-5f0d-a775-e91f-191d1f5608a4") then some ⟨("Medium"), ("f6aa58"), 3⟩
  else if guid = ("bb824e8d-b401-40be-13bd-5d156696a685") then some ⟨("Low"), ("eec845"), 4⟩
  else none

/-- Error thrown by findSecurityAuditorFilterSet on an empty or absent
filter-set list. -/
def sscNoFilterSetsMsg : String := "No filter sets found for this project version"

/-- The title fragment searched for in filter-set titles. -/
def securityAuditorTitle : String := "Security Auditor"

/-- The predicate of the single find call in findSecurityAuditorFilterSet:
default-flagged OR title containing "Security Auditor" — one pass, with no
priority between the two conditions. -/
def fsPred (fs : FilterSet) : Bool :=
  fs.defaultFilterSet || strContains fs.title securityAuditorTitle

/-- src/unnamed/part_003, FortifySSCProvider.findSecurityAuditorFilterSet:
resp is the makeRequest outcome of the filterSets endpoint.  Empty or
absent data throws; otherwise the first entry satisfying fsPred is
selected, falling back to the first entry of the list. -/
def FortifySSCProvider.findSecurityAuditorFilterSet
    (resp : Except String (Option (List FilterSet))) : Except String String :=
  match resp with
  | Except.error e => Except.error e
  | Except.ok none => Except.error sscNoFilterSetsMsg
  | Except.ok (some data) =>
    match data with
    | [] => Except.error sscNoFilterSetsMsg
    | first :: rest =>
      match (first :: rest).find? fsPred with
      | some fs => Except.ok fs.guid
      | none => Except.ok first.guid

/-- src/unnamed/part_003, FortifySSCProvider.mapSSCIssueToSecurityIssue. -/
def FortifySSCProvider.mapSSCIssueToSecurityIssue (issue : SSCIssue) : SecurityIssue :=
  let folderGuid := issue.folderGuid
  let folder := SECURITY_AUDITOR_FOLDERS folderGuid
  let folderName := (folder.map (fun f => f.name)).getD ("Unknown")
  let folderColor := (folder.map (fun f => f.color)).getD ("666666")
  let folderId := (folder.map (fun f => f.id)).getD 0
  ⟨jsOrStr issue.id "",                                -- id (id.toString() || two quotes)
   issue.issueInstanceId,                              -- instanceId (|| empty is the identity here)
   jsOrStr issue.issueName (jsOrStr issue.category ("Unknown Issue")),  -- name
   folderName,                                         -- severity
   folderName,                                         -- priority
   FortifySSCProvider.mapLikelihoodToString (issue.likelihood.getD 0),
   FortifySSCProvider.mapConfidenceToString (issue.confidence.getD 0),
   jsOrStr issue.primaryLocation issue.fileName,
   issue.lineNumber,
   issue.kingdom,
   jsOrStr issue.category (jsOrStr issue.issueName ("Uncategorized")),
   issue.friority,                                     -- priority_score
   folderGuid,
   folderId,
   folderName,
   folderColor,
   FortifyProviderType.SSC⟩

/-- src/unnamed/part_003, the while loop of
fetchAllIssuesWithSecurityAuditorMapping.  pages maps a start offset to the
makeRequest outcome of the issues endpoint for the selected filter set
(limit is the constant 100).  As in the FoD loop, the fuel maxIssues + 1
passed by the caller can never be exhausted. -/
def FortifySSCProvider.fetchIssuesLoop
    (pages : Nat → Except String (Option (List SSCIssue))) (maxIssues : Nat) :
    Nat → List SecurityIssue → Nat → Except String (List SecurityIssue)
  | 0, acc, _ => Except.ok acc
  | Nat.succ fuel, acc, start =>
    if maxIssues ≤ acc.length then Except.ok acc
    else
      match pages start with
      | Except.error e => Except.error e
      | Except.ok none => Except.ok acc
      | Except.ok (some data) =>
        if data.length = 0 then Except.ok acc
        else
          let acc2 := acc ++ data.map FortifySSCProvider.mapSSCIssueToSecurityIssue
          if maxIssues ≤ acc2.length then Except.ok acc2
          else if data.length < 100 then Except.ok acc2
          else FortifySSCProvider.fetchIssuesLoop pages maxIssues fuel acc2 (start + 100)

/-- src/unnamed/part_003, fetchAllIssuesWithSecurityAuditorMapping: run the
loop from an empty accumulator at start 0, cap with slice(0, maxIssues). -/
def FortifySSCProvider.fetchAllIssuesWithSecurityAuditorMapping
    (pages : Nat → Except String (Option (List SSCIssue))) (maxIssues : Nat) :
    Except String (List SecurityIssue) :=
  (FortifySSCProvider.fetchIssuesLoop pages maxIssues (maxIssues + 1) [] 0).map
    (fun l => l.take maxIssues)

/-- SSC validate: application not found. -/
def sscAppNotFoundMsg (appName : String) : String :=
  ("Application \"") ++ appName ++ ("\" not found in Fortify SSC")

/-- SSC validate: wrapper of errors caught by the surrounding try/catch. -/
def sscValidationFailedMsg (e : String) : String := ("Validation failed: ") ++ e

/-- SSC validate, version-not-found path: best-effort enumeration of the
available versions; its failure is swallowed and replaced by a generic
message. -/
def sscVersionNotFoundResult (appName appVersion : String)
    (allVerResp : Except String (Option (List SSCNamedEntity))) : ValidationResult :=
  match allVerResp with
  | Except.error _ =>
    ⟨false, none, none,
     some (("Version \"") ++ appVersion ++ ("\" not found for application \"") ++ appName ++ ("\"")),
     FortifyProviderType.SSC⟩
  | Except.ok none =>
    ⟨false, none, none,
     some (("Version \"") ++ appVersion ++ ("\" not found. Available versions: ") ++ ("none")),
     FortifyProviderType.SSC⟩
  | Except.ok (some vers) =>
    ⟨false, none, none,
     some (("Version \"") ++ appVersion ++ ("\" not found. Available versions: ")
       ++ jsOrStr (joinNames (vers.map (fun v => v.name))) ("none")),
     FortifyProviderType.SSC⟩

/-- src/unnamed/part_003, FortifySSCProvider.validateApplicationAndVersion.
appResp / verResp / allVerResp are the makeRequest outcomes of the project
name search, the version name search of the resolved project, and the
unfiltered version enumeration.  Unlike the FoD provider, the id of the
FIRST entry of each search result is taken, with no comparison of the
entry name against the requested name. -/
def FortifySSCProvider.validateApplicationAndVersion (appName appVersion : String)
    (appResp : Except String (Option (List SSCNamedEntity)))
    (verResp : Nat → Except String (Option (List SSCNamedEntity)))
    (allVerResp : Nat → Except String (Option (List SSCNamedEntity))) : ValidationResult :=
  match appResp with
  | Except.error e =>
    ⟨false, none, none, some (sscValidationFailedMsg e), FortifyProviderType.SSC⟩
  | Except.ok none =>
    ⟨false, none, none, some (sscAppNotFoundMsg appName), FortifyProviderType.SSC⟩
  | Except.ok (some data) =>
    match data with
    | [] => ⟨false, none, none, some (sscAppNotFoundMsg appName), FortifyProviderType.SSC⟩
    | proj :: _ =>
      match verResp proj.id with
      | Except.error e =>
        ⟨false, none, none, some (sscValidationFailedMsg e), FortifyProviderType.SSC⟩
      | Except.ok none => sscVersionNotFoundResult appName appVersion (allVerResp proj.id)
      | Except.ok (some vdata) =>
        match vdata with
        | [] => sscVersionNotFoundResult appName appVersion (allVerResp proj.id)
        | ver :: _ =>
          ⟨true, some (toString proj.id), some (toString ver.id),
           none, FortifyProviderType.SSC⟩

/-- src/unnamed/part_003, FortifySSCProvider.fetchReportData: resolve the
project and version (first search result, no exact-match check), select the
filter set, paginate the issues; any error propagates and no ReportData is
produced.  pages takes the selected filter-set guid and the start offset. -/
def FortifySSCProvider.fetchReportData (baseUrl appName appVersion : String)
    (projResp : Except String (Option (List SSCNamedEntity)))
    (verResp : Nat → Except String (Option (List SSCNamedEntity)))
    (filterSetsResp : Nat → Except String (Option (List FilterSet)))
    (pages : String → Nat → Except String (Option (List SSCIssue)))
    (scanDate : String) (maxIssues : Nat) : Except String ReportData :=
  match projResp with
  | Except.error e => Except.error e
  | Except.ok none => Except.error (("Application \"") ++ appName ++ ("\" not found"))
  | Except.ok (some data) =>
    match data with
    | [] => Except.error (("Application \"") ++ appName ++ ("\" not found"))
    | proj :: _ =>
      match verResp proj.id with
      | Except.error e => Except.error e
      | Except.ok none => Except.error (("Version \"") ++ appVersion ++ ("\" not found"))
      | Except.ok (some vdata) =>
        match vdata with
        | [] => Except.error (("Version \"") ++ appVersion ++ ("\" not found"))
        | ver :: _ =>
          match FortifySSCProvider.findSecurityAuditorFilterSet (filterSetsResp ver.id) with
          | Except.error e => Except.error e
          | Except.ok guid =>
            match FortifySSCProvider.fetchAllIssuesWithSecurityAuditorMapping
                (pages guid) maxIssues with
            | Except.error e => Except.error e
            | Except.ok allIssues =>
              Except.ok ⟨allIssues, appName, appVersion, scanDate, allIssues.length,
                         some (toString ver.id), FortifyProviderType.SSC,
                         some baseUrl⟩

/-- A paged FoD backend holding the finding list all: the page at a given
offset is the next 50 findings, with the total count reported. -/
def stdFoDPages (all : List FoDVulnerability) (offset : Nat) :
    Except String (Option FoDVulnPage) :=
  Except.ok (some ⟨some ((all.drop offset).take 50), some all.length⟩)

/-- A paged SSC backend holding the issue list all: the page at a given
start offset is the next 100 issues. -/
def stdSSCPages (all : List SSCIssue) (start : Nat) :
    Except String (Option (List SSCIssue)) :=
  Except.ok (some ((all.drop start).take 100))

/-- Spec-side model of the FoD location construction, written from the
spec sentence (prefer primaryLocationFull, fall back to fileName, then
shortFileName; append a colon and the line number only when positive; with
no file path but a positive line number, exactly the colon-number form;
else empty), to be compared with the source embedding. -/
def specPrimaryLocation (primaryLocationFull fileName shortFileName : String)
    (lineNumber : Int) : String :=
  let path :=
    if primaryLocationFull ≠ "" then primaryLocationFull
    else if fileName ≠ "" then fileName
    else shortFileName
  if path ≠ "" then
    if 0 < lineNumber then path ++ (":") ++ toString lineNumber else path
  else if 0 < lineNumber then (":") ++ toString lineNumber
  else ""

/-- A FoD vulnerability record with the given fileName and lineNumber and
every other string field empty, used for the concrete location examples. -/
def mkLocVuln (file : String) (line : Int) : FoDVulnerability :=
  ⟨1, "", "", "", "", "", file, "", "", line, 0, 0, "", 0⟩

/-- A concrete FoD vulnerability used in pagination witnesses. -/
def cexVuln : FoDVulnerability :=
  ⟨31318521, ("abb6c1ff-7b24-4b6d-a469-c3d6d7bea656"), "", ("Input Validation"),
   ("SQL Injection"), "", ("a.java"), ("src/a.java"), ("a.java"), 10, 5, 1,
   ("Critical"), 1⟩

/-- A concrete SSC issue used in pagination witnesses. -/
def cexSSCIssue : SSCIssue :=
  ⟨("100"), ("inst-1"), ("SQL Injection"), some 1, some 5, ("a.java:10"), 10,
   ("Input Validation"), ("SQL Injection"), 1,
   ("b968f72f-cc12-03b5-976e-ad4c13920c21"), ("a.java")⟩

/-- SSC application search results of the C1 counterexample: the backend
returns the partial matches in an order placing a non-exact name first. -/
def cexSSCApps : List SSCNamedEntity := [⟨1, ("MyApp2")⟩, ⟨2, ("MyApp")⟩]

/-- SSC version search result of the C1 counterexample. -/
def cexSSCVers : List SSCNamedEntity := [⟨7, ("v1")⟩]

/-- Filter sets of the C2 counterexample: a default-flagged set positioned
before a set whose title contains "Security Auditor". -/
def cexFilterSets : List FilterSet :=
  [⟨("Everything"), true, ("g1")⟩, ⟨("Security Auditor View"), false, ("g2")⟩]

/-- A concrete FoD page oracle: a full page of 50 findings at offset 0,
every later page request rejected. -/
def cexPages : Nat → Except String (Option FoDVulnPage)
  | 0 => Except.ok (some ⟨some (List.replicate 50 cexVuln), none⟩)
  | _ + 1 => Except.error ("boom")

/-- A concrete FoD backend content of 4 findings. -/
def cexFoDFindings : List FoDVulnerability := List.replicate 4 cexVuln

/-- A concrete SSC backend content of 4 issues. -/
def cexSSCFindings : List SSCIssue := List.replicate 4 cexSSCIssue

/-- Claim C6: the normalized FoD issue id is the decimal string of the
numeric id (the UUID vulnId only lands in instanceId, used when
vulnInstanceId is absent), so generateIssueUrl applied to that id embeds
the numeric identifier in the deep link. -/
theorem fod_issue_url_uses_numeric_id (v : FoDVulnerability)
    (baseUrl applicationId releaseId : String) :
    ((FortifyFoDProvider.mapFoDVulnToSecurityIssue v).id = toString v.id)
  ∧ ((FortifyFoDProvider.mapFoDVulnToSecurityIssue v).instanceId
      = (if v.vulnInstanceId = "" then v.vulnId else v.vulnInstanceId))
  ∧ (FortifyFoDProvider.generateIssueUrl baseUrl applicationId releaseId
        (FortifyFoDProvider.mapFoDVulnToSecurityIssue v).id
      = FortifyFoDProvider.webUrl baseUrl ++ ("/Releases/") ++ releaseId
          ++ ("/Issues/") ++ toString v.id) :=
  ⟨rfl, rfl, rfl⟩

/-- Claim C8: the source location construction agrees pointwise with the
spec-side model, and the four concrete examples of the spec hold. -/
theorem fod_primary_location_construction (v : FoDVulnerability) :
    ((FortifyFoDProvider.mapFoDVulnToSecurityIssue v).primaryLocation
      = specPrimaryLocation v.primaryLocationFull v.fileName v.shortFileName v.lineNumber)
  ∧ ((FortifyFoDProvider.mapFoDVulnToSecurityIssue (mkLocVuln ("a.java") 10)).primaryLocation
      = ("a.java:10"))
  ∧ ((FortifyFoDProvider.mapFoDVulnToSecurityIssue (mkLocVuln ("a.java") 0)).primaryLocation
      = ("a.java"))
  ∧ ((FortifyFoDProvider.mapFoDVulnToSecurityIssue (mkLocVuln ("") 10)).primaryLocation
      = (":10"))
  ∧ ((FortifyFoDProvider.mapFoDVulnToSecurityIssue (mkLocVuln ("") 0)).primaryLocation
      = ("")) := by
  refine ⟨?_, by decide, by decide, by decide, by decide⟩
  simp only [FortifyFoDProvider.mapFoDVulnToSecurityIssue, specPrimaryLocation, jsOrStr]
  by_cases h1 : v.primaryLocationFull = "" <;>
    by_cases h2 : v.fileName = "" <;>
    by_cases h3 : v.shortFileName = "" <;>
    simp [h1, h2, h3]

/-- Claim C7: both providers classify likelihood and confidence with
thresholds closed at the lower bound: exactly 7/10 is Likely, exactly 3/10
is Possible, anything below 3/10 is Unlikely; exactly 4 is High, exactly
5/2 is Medium, anything below 5/2 is Low. -/
theorem classifier_thresholds_closed_lower (x : Rat) :
    (FortifyFoDProvider.mapLikelihoodToString (7/10) = "Likely")
  ∧ (FortifyFoDProvider.mapLikelihoodToString (3/10) = "Possible")
  ∧ (x < 3/10 → FortifyFoDProvider.mapLikelihoodToString x = "Unlikely")
  ∧ (FortifyFoDProvider.mapConfidenceToString 4 = "High")
  ∧ (FortifyFoDProvider.mapConfidenceToString (5/2) = "Medium")
  ∧ (x < 5/2 → FortifyFoDProvider.mapConfidenceToString x = "Low")
  ∧ (FortifySSCProvider.mapLikelihoodToString (7/10) = "Likely")
  ∧ (FortifySSCProvider.mapLikelihoodToString (3/10) = "Possible")
  ∧ (x < 3/10 → FortifySSCProvider.mapLikelihoodToString x = "Unlikely")
  ∧ (FortifySSCProvider.mapConfidenceToString 4 = "High")
  ∧ (FortifySSCProvider.mapConfidenceToString (5/2) = "Medium")
  ∧ (x < 5/2 → FortifySSCProvider.mapConfidenceToString x = "Low") := by
  refine ⟨by norm_num [FortifyFoDProvider.mapLikelihoodToString],
          by norm_num [FortifyFoDProvider.mapLikelihoodToString],
          fun h => ?_,
          by norm_num [FortifyFoDProvider.mapConfidenceToString],
          by norm_num [FortifyFoDProvider.mapConfidenceToString],
          fun h => ?_,
          by norm_num [FortifySSCProvider.mapLikelihoodToString],
          by norm_num [FortifySSCProvider.mapLikelihoodToString],
          fun h => ?_,
          by norm_num [FortifySSCProvider.mapConfidenceToString],
          by norm_num [FortifySSCProvider.mapConfidenceToString],
          fun h => ?_⟩
  · have h1 : ¬ ((7:Rat)/10 ≤ x) := not_le.mpr (h.trans (by norm_num))
    have h2 : ¬ ((3:Rat)/10 ≤ x) := not_le.mpr h
    simp [FortifyFoDProvider.mapLikelihoodToString, h1, h2]
  · have h1 : ¬ ((4:Rat) ≤ x) := not_le.mpr (h.trans (by norm_num))
    have h2 : ¬ ((5:Rat)/2 ≤ x) := not_le.mpr h
    simp [FortifyFoDProvider.mapConfidenceToString, h1, h2]
  · have h1 : ¬ ((7:Rat)/10 ≤ x) := not_le.mpr (h.trans (by norm_num))
    have h2 : ¬ ((3:Rat)/10 ≤ x) := not_le.mpr h
    simp [FortifySSCProvider.mapLikelihoodToString, h1, h2]
  · have h1 : ¬ ((4:Rat) ≤ x) := not_le.mpr (h.trans (by norm_num))
    have h2 : ¬ ((5:Rat)/2 ≤ x) := not_le.mpr h
    simp [FortifySSCProvider.mapConfidenceToString, h1, h2]

/-- Witness for C7 at the concrete score 0, which lies below both lower
thresholds. -/
theorem classifier_thresholds_closed_lower_witness :
    (FortifyFoDProvider.mapLikelihoodToString 0 = "Unlikely")
  ∧ (FortifyFoDProvider.mapConfidenceToString 0 = "Low")
  ∧ (FortifySSCProvider.mapLikelihoodToString 0 = "Unlikely")
  ∧ (FortifySSCProvider.mapConfidenceToString 0 = "Low") := by
  obtain ⟨-, -, a3, -, -, a6, -, -, b3, -, -, b6⟩ := classifier_thresholds_closed_lower 0
  exact ⟨a3 (by norm_num), a6 (by norm_num), b3 (by norm_num), b6 (by norm_num)⟩

/-- Claim C9: with stored token material, the FoD key-exchange strategy
reports valid exactly while now is strictly before expiry minus the
5-minute buffer (so it is already invalid at and inside the buffer, before
the actual expiry), and it reports invalid whenever token or expiry is
missing. -/
theorem fod_isValid_expiry_buffer (k s tok : String) (expiry now : Int)
    (ht : tok ≠ "") :
    (FoDApiKeyAuthStrategy.isValid ⟨k, s, some tok, some expiry⟩ now = true ↔
      now < expiry - FoDApiKeyAuthStrategy.tokenBuffer)
  ∧ (FoDApiKeyAuthStrategy.tokenBuffer = 5 * 60 * 1000)
  ∧ (∀ e2 : Option Int, FoDApiKeyAuthStrategy.isValid ⟨k, s, none, e2⟩ now = false)
  ∧ (FoDApiKeyAuthStrategy.isValid ⟨k, s, some tok, none⟩ now = false) := by
  refine ⟨?_, rfl, ?_, rfl⟩
  · simp [FoDApiKeyAuthStrategy.isValid, ht]
  · intro e2
    cases e2 <;> rfl

/-- Witness for C9: a concrete token valid until time 1000000, queried at
time 0 (before the buffer) — the theorem instance evaluates to true there,
and the degenerate states evaluate to false. -/
theorem fod_isValid_expiry_buffer_witness :
    (FoDApiKeyAuthStrategy.isValid ⟨("k"), ("s"), some ("t"), some 1000000⟩ 0 = true ↔
      (0:Int) < 1000000 - FoDApiKeyAuthStrategy.tokenBuffer)
  ∧ (FoDApiKeyAuthStrategy.tokenBuffer = 5 * 60 * 1000)
  ∧ (∀ e2 : Option Int, FoDApiKeyAuthStrategy.isValid ⟨("k"), ("s"), none, e2⟩ 0 = false)
  ∧ (FoDApiKeyAuthStrategy.isValid ⟨("k"), ("s"), some ("t"), none⟩ 0 = false) :=
  fod_isValid_expiry_buffer ("k") ("s") ("t") 1000000 0 (by decide)

/-- Claim C10: detectProviderType returns an explicitly set kind
unchanged; otherwise a (truthy) CI token forces SSC even when both FoD
keys are present; FoD results only from an absent CI token with both keys
present; everything else defaults to SSC. -/
theorem detectProviderType_precedence (pt : FortifyProviderType)
    (ct ak sk : Option String) :
    (∀ c k s2, FortifyProviderFactory.detectProviderType ⟨some pt, c, k, s2⟩ = pt)
  ∧ (jsTruthyOptStr ct = true →
      FortifyProviderFactory.detectProviderType ⟨none, ct, ak, sk⟩ = FortifyProviderType.SSC)
  ∧ (jsTruthyOptStr ct = false → jsTruthyOptStr ak = true → jsTruthyOptStr sk = true →
      FortifyProviderFactory.detectProviderType ⟨none, ct, ak, sk⟩ = FortifyProviderType.FoD)
  ∧ (jsTruthyOptStr ct = false → (jsTruthyOptStr ak = false ∨ jsTruthyOptStr sk = false) →
      FortifyProviderFactory.detectProviderType ⟨none, ct, ak, sk⟩ = FortifyProviderType.SSC) := by
  refine ⟨fun c k s2 => rfl,
          fun h => by simp [FortifyProviderFactory.detectProviderType, h],
          fun h1 h2 h3 => by simp [FortifyProviderFactory.detectProviderType, h1, h2, h3],
          fun h1 h2 => ?_⟩
  rcases h2 with h2 | h2 <;> simp [FortifyProviderFactory.detectProviderType, h1, h2]

/-- Witness for C10 at concrete configurations: explicit kind, CI token
beating a full key pair, a key pair alone, and an incomplete key pair. -/
theorem detectProviderType_precedence_witness :
    (FortifyProviderFactory.detectProviderType
        ⟨some FortifyProviderType.FoD, some ("tok"), none, none⟩ = FortifyProviderType.FoD)
  ∧ (FortifyProviderFactory.detectProviderType
        ⟨none, some ("tok"), some ("k"), some ("s")⟩ = FortifyProviderType.SSC)
  ∧ (FortifyProviderFactory.detectProviderType
        ⟨none, none, some ("k"), some ("s")⟩ = FortifyProviderType.FoD)
  ∧ (FortifyProviderFactory.detectProviderType
        ⟨none, none, some ("k"), none⟩ = FortifyProviderType.SSC) := by
  refine ⟨(detectProviderType_precedence FortifyProviderType.FoD none none none).1
            (some ("tok")) none none,
          (detectProviderType_precedence FortifyProviderType.SSC (some ("tok"))
            (some ("k")) (some ("s"))).2.1 (by decide),
          (detectProviderType_precedence FortifyProviderType.SSC none
            (some ("k")) (some ("s"))).2.2.1 (by decide) (by decide) (by decide),
          (detectProviderType_precedence FortifyProviderType.SSC none
            (some ("k")) none).2.2.2 (by decide) (Or.inr (by decide))⟩

/-- Counterexample to C3: the SSC strategy returns a header set before any
authenticate() call, even for the empty token — getAuthHeaders is a total
function in the source (no throw), so the claimed authentication error
never occurs for the SSC variant, and the Authorization header is built
from the absent credential. -/
theorem ssc_getAuthHeaders_no_failure_cex :
    SSCTokenAuthStrategy.getAuthHeaders ("") =
      [(("Authorization"), ("FortifyToken ")),
       (("Accept"), acceptJsonStr),
       (("User-Agent"), userAgentStr)] := by decide

/-- Claim C3 amended: only the FoD key-exchange strategy guards
getAuthHeaders — on a fresh state it fails with the authentication error,
and after a successful authenticate it returns Bearer headers; the SSC
static-token strategy returns its header set unconditionally, built
directly from the constructor-supplied token. -/
theorem getAuthHeaders_before_authenticate (k s t : String) (e now : Int) :
    (FoDApiKeyAuthStrategy.getAuthHeaders (FoDApiKeyAuthStrategy.mk0 k s)
      = Except.error fodNotAuthenticatedMsg)
  ∧ (SSCTokenAuthStrategy.getAuthHeaders k
      = [(("Authorization"), ("FortifyToken ") ++ k),
         (("Accept"), acceptJsonStr),
         (("User-Agent"), userAgentStr)])
  ∧ (k ≠ "" → s ≠ "" → t ≠ "" →
      ∃ st2, FoDApiKeyAuthStrategy.authenticate (FoDApiKeyAuthStrategy.mk0 k s)
          (Except.ok ⟨t, e⟩) now = Except.ok st2
        ∧ FoDApiKeyAuthStrategy.getAuthHeaders st2
          = Except.ok [(("Authorization"), ("Bearer ") ++ t),
                       (("Accept"), acceptJsonStr),
                       (("User-Agent"), userAgentStr)]) := by
  refine ⟨rfl, rfl, fun hk hs ht => ?_⟩
  refine ⟨⟨k, s, some t, some (now + e * 1000)⟩, ?_, ?_⟩
  · simp [FoDApiKeyAuthStrategy.authenticate, FoDApiKeyAuthStrategy.mk0, hk, hs]
  · simp [FoDApiKeyAuthStrategy.getAuthHeaders, ht]

/-- Witness for C3 (amended) at concrete credentials and token data. -/
theorem getAuthHeaders_before_authenticate_witness :
    (FoDApiKeyAuthStrategy.getAuthHeaders (FoDApiKeyAuthStrategy.mk0 ("key") ("sec"))
      = Except.error fodNotAuthenticatedMsg)
  ∧ (SSCTokenAuthStrategy.getAuthHeaders ("key")
      = [(("Authorization"), ("FortifyToken ") ++ ("key")),
         (("Accept"), acceptJsonStr),
         (("User-Agent"), userAgentStr)])
  ∧ (∃ st2, FoDApiKeyAuthStrategy.authenticate (FoDApiKeyAuthStrategy.mk0 ("key") ("sec"))
        (Except.ok ⟨("tok"), 3600⟩) 0 = Except.ok st2
      ∧ FoDApiKeyAuthStrategy.getAuthHeaders st2
        = Except.ok [(("Authorization"), ("Bearer ") ++ ("tok")),
                     (("Accept"), acceptJsonStr),
                     (("User-Agent"), userAgentStr)]) := by
  obtain ⟨h1, h2, h3⟩ := getAuthHeaders_before_authenticate ("key") ("sec") ("tok") 3600 0
  exact ⟨h1, h2, h3 (by decide) (by decide) (by decide)⟩

/-- Counterexample to C2: with a default-flagged filter set positioned
before a set whose title contains "Security Auditor", the selection
returns the default one (guid g1), not the claimed priority choice g2. -/
theorem filterset_default_first_beats_title_cex :
    (FortifySSCProvider.findSecurityAuditorFilterSet (Except.ok (some cexFilterSets))
      = Except.ok (("g1")))
  ∧ (∃ fs ∈ cexFilterSets, strContains fs.title securityAuditorTitle = true ∧ fs.guid = ("g2"))
  ∧ (∀ fs ∈ cexFilterSets, fs.guid = ("g1") →
      strContains fs.title securityAuditorTitle = false ∧ fs.defaultFilterSet = true) := by
  refine ⟨by decide, by decide, by decide⟩

/-- Claim C2 amended: the SSC filter-set selection is a single find pass
over the backend list with the disjunctive predicate default-flagged OR
title containing "Security Auditor" — the first entry satisfying either
condition wins, with no priority between the two conditions — falling back
to the first entry of the list, and failing on an empty list. -/
theorem filterset_selection_single_pass (l1 l2 : List FilterSet)
    (fs first0 : FilterSet) (rest : List FilterSet) :
    (FortifySSCProvider.findSecurityAuditorFilterSet
        (Except.ok (some ([] : List FilterSet))) = Except.error sscNoFilterSetsMsg)
  ∧ ((∀ x ∈ l1, fsPred x = false) → fsPred fs = true →
      FortifySSCProvider.findSecurityAuditorFilterSet (Except.ok (some (l1 ++ fs :: l2)))
        = Except.ok fs.guid)
  ∧ ((∀ x ∈ first0 :: rest, fsPred x = false) →
      FortifySSCProvider.findSecurityAuditorFilterSet (Except.ok (some (first0 :: rest)))
        = Except.ok first0.guid) := by
  refine ⟨rfl, fun h1 h2 => ?_, fun h => ?_⟩
  · have hl1 : l1.find? fsPred = none :=
      List.find?_eq_none.mpr (fun x hx => by simp [h1 x hx])
    have hfind : (l1 ++ fs :: l2).find? fsPred = some fs := by
      rw [List.find?_append, hl1, Option.none_or]
      exact List.find?_cons_of_pos l2 h2
    cases l1 with
    | nil =>
      simp only [List.nil_append] at hfind ⊢
      simp [FortifySSCProvider.findSecurityAuditorFilterSet, hfind]
    | cons a as =>
      simp only [List.cons_append] at hfind ⊢
      simp [FortifySSCProvider.findSecurityAuditorFilterSet, hfind]
  · have hfind : (first0 :: rest).find? fsPred = none :=
      List.find?_eq_none.mpr (fun x hx => by simp [h x hx])
    simp [FortifySSCProvider.findSecurityAuditorFilterSet, hfind]

/-- Witness for C2 (amended) at concrete filter-set lists. -/
theorem filterset_selection_single_pass_witness :
    (FortifySSCProvider.findSecurityAuditorFilterSet
        (Except.ok (some ([] : List FilterSet))) = Except.error sscNoFilterSetsMsg)
  ∧ (FortifySSCProvider.findSecurityAuditorFilterSet
        (Except.ok (some ([⟨("A"), false, ("gA")⟩] ++
          (⟨("Security Auditor View"), false, ("g2")⟩ : FilterSet) :: [])))
      = Except.ok (("g2")))
  ∧ (FortifySSCProvider.findSecurityAuditorFilterSet
        (Except.ok (some ((⟨("B"), false, ("gB")⟩ : FilterSet) :: [])))
      = Except.ok (("gB"))) := by
  obtain ⟨w1, w2, w3⟩ := filterset_selection_single_pass
    [⟨("A"), false, ("gA")⟩] [] ⟨("Security Auditor View"), false, ("g2")⟩
    ⟨("B"), false, ("gB")⟩ []
  exact ⟨w1, w2 (by decide) (by decide), w3 (by decide)⟩

/-- Counterexample to C1: the SSC provider resolves "MyApp" against a
partial-match result set that lists "MyApp2" first — it succeeds with the
id of the first entry (the non-exact "MyApp2", id 1), even though an exact
"MyApp" entry (id 2) is present, instead of selecting only the exact match
or failing. -/
theorem ssc_partial_match_accepted_cex :
    (FortifySSCProvider.validateApplicationAndVersion ("MyApp") ("v1")
        (Except.ok (some cexSSCApps)) (fun _ => Except.ok (some cexSSCVers))
        (fun _ => Except.ok (some cexSSCVers))
      = ⟨true, some (("1")), some (("7")), none, FortifyProviderType.SSC⟩)
  ∧ (cexSSCApps.map (fun a => a.name) = [("MyApp2"), ("MyApp")])
  ∧ (("MyApp2") ≠ ("MyApp"))
  ∧ (∃ a ∈ cexSSCApps, a.name = ("MyApp") ∧ a.id = 2) := by
  refine ⟨by decide, by decide, by decide, by decide⟩

/-- Claim C1 amended: the FoD provider resolves names only by exact match
— with no exact application match among a search result set it fails, and
a successful validation implies an exactly matching application and
release existed in the respective result sets; the SSC provider instead
resolves to the FIRST entry of each non-empty search result set without
comparing names, never failing on a near-match. -/
theorem name_resolution_exactness (appName appVersion : String)
    (apps : List FoDApplication) (rels : List FoDRelease)
    (relResp allRelResp : Nat → Except String (Option (List FoDRelease)))
    (p sv : SSCNamedEntity) (sscApps sscVers : List SSCNamedEntity)
    (sscAllVer : Nat → Except String (Option (List SSCNamedEntity))) :
    ((∀ a ∈ apps, a.applicationName ≠ appName) →
      (FortifyFoDProvider.validateApplicationAndVersion appName appVersion
        (Except.ok (some apps)) relResp allRelResp).success = false)
  ∧ ((FortifyFoDProvider.validateApplicationAndVersion appName appVersion
        (Except.ok (some apps)) (fun _ => Except.ok (some rels)) allRelResp).success = true →
      (∃ a ∈ apps, a.applicationName = appName) ∧ (∃ r ∈ rels, r.releaseName = appVersion))
  ∧ (FortifySSCProvider.validateApplicationAndVersion appName appVersion
        (Except.ok (some (p :: sscApps))) (fun _ => Except.ok (some (sv :: sscVers))) sscAllVer
      = ⟨true, some (toString p.id), some (toString sv.id), none, FortifyProviderType.SSC⟩) := by
  refine ⟨fun h => ?_, fun hsucc => ?_, rfl⟩
  · have hfind : apps.find? (fun app => app.applicationName == appName) = none :=
      List.find?_eq_none.mpr (fun a ha => by simp [h a ha])
    by_cases hlen : apps.length = 0
    · simp [FortifyFoDProvider.validateApplicationAndVersion, hlen]
    · simp [FortifyFoDProvider.validateApplicationAndVersion, hlen, hfind]
  · by_cases hlen : apps.length = 0
    · simp [FortifyFoDProvider.validateApplicationAndVersion, hlen] at hsucc
    · cases hfa : apps.find? (fun app => app.applicationName == appName) with
      | none =>
        simp [FortifyFoDProvider.validateApplicationAndVersion, hlen, hfa] at hsucc
      | some app =>
        by_cases hrl : rels.length = 0
        · have hfail : (fodReleaseNotFoundResult appName appVersion
              (allRelResp app.applicationId)).success = false := by
            cases h2 : allRelResp app.applicationId with
            | error e => simp [fodReleaseNotFoundResult]
            | ok o => cases o <;> simp [fodReleaseNotFoundResult]
          simp [FortifyFoDProvider.validateApplicationAndVersion, hlen, hfa, hrl, hfail] at hsucc
        · cases hfr : rels.find? (fun rel => rel.releaseName == appVersion) with
          | none =>
            simp [FortifyFoDProvider.validateApplicationAndVersion, hlen, hfa, hrl, hfr] at hsucc
          | some rel =>
            exact ⟨⟨app, List.mem_of_find?_eq_some hfa, by simpa using List.find?_some hfa⟩,
                   ⟨rel, List.mem_of_find?_eq_some hfr, by simpa using List.find?_some hfr⟩⟩

/-- Witness for C1 (amended): a no-exact-match FoD set fails; a successful
FoD validation over a set containing the exact names implies their
existence; the SSC resolution of concrete first entries. -/
theorem name_resolution_exactness_witness :
    ((FortifyFoDProvider.validateApplicationAndVersion ("MyApp") ("v1")
        (Except.ok (some [⟨1, ("MyApp2")⟩]))
        (fun _ => Except.ok (some ([] : List FoDRelease)))
        (fun _ => Except.ok (some ([] : List FoDRelease)))).success = false)
  ∧ ((∃ a ∈ ([⟨1, ("MyApp2")⟩, ⟨2, ("MyApp")⟩] : List FoDApplication),
        a.applicationName = ("MyApp"))
      ∧ (∃ r ∈ ([⟨7, ("v1")⟩] : List FoDRelease), r.releaseName = ("v1")))
  ∧ (FortifySSCProvider.validateApplicationAndVersion ("MyApp") ("v1")
        (Except.ok (some [⟨1, ("Other")⟩])) (fun _ => Except.ok (some [⟨7, ("w")⟩]))
        (fun _ => Except.ok none)
      = ⟨true, some (("1")), some (("7")), none, FortifyProviderType.SSC⟩) := by
  refine ⟨(name_resolution_exactness ("MyApp") ("v1") [⟨1, ("MyApp2")⟩] []
            (fun _ => Except.ok (some ([] : List FoDRelease)))
            (fun _ => Except.ok (some ([] : List FoDRelease)))
            ⟨1, ("Other")⟩ ⟨7, ("w")⟩ [] [] (fun _ => Except.ok none)).1 (by decide),
          (name_resolution_exactness ("MyApp") ("v1")
            [⟨1, ("MyApp2")⟩, ⟨2, ("MyApp")⟩] [⟨7, ("v1")⟩]
            (fun _ => Except.ok (some [⟨7, ("v1")⟩]))
            (fun _ => Except.ok (some [⟨7, ("v1")⟩]))
            ⟨1, ("Other")⟩ ⟨7, ("w")⟩ [] [] (fun _ => Except.ok none)).2.1 (by decide),
          (name_resolution_exactness ("MyApp") ("v1") [⟨1, ("MyApp2")⟩] []
            (fun _ => Except.ok (some ([] : List FoDRelease)))
            (fun _ => Except.ok (some ([] : List FoDRelease)))
            ⟨1, ("Other")⟩ ⟨7, ("w")⟩ [] [] (fun _ => Except.ok none)).2.2⟩

/-- Error propagation through the FoD pagination loop: starting from any
loop state, after k further full pages (50 items each) a failing page
request at the next offset turns the whole loop into the offset-tagged
error, discarding the accumulator. -/
theorem fetchVulnsLoop_error_propagates
    (pages : Nat → Except String (Option FoDVulnPage)) (maxIssues : Nat) (msg : String) :
    ∀ (k : Nat) (acc : List SecurityIssue) (offset fuel : Nat),
    (∀ i, i < k → ∃ page items, pages (offset + i * 50) = Except.ok (some page) ∧
        page.items = some items ∧ items.length = 50) →
    pages (offset + k * 50) = Except.error msg →
    acc.length + k * 50 < maxIssues →
    k < fuel →
    FortifyFoDProvider.fetchVulnsLoop pages maxIssues fuel acc offset
      = Except.error (fodOffsetErrMsg (offset + k * 50) msg) := by
  intro k
  induction k with
  | zero =>
    intro acc offset fuel hfull herr hcap hfuel
    obtain ⟨f, rfl⟩ : ∃ f, fuel = f + 1 := ⟨fuel - 1, by omega⟩
    have hlt : ¬ (maxIssues ≤ acc.length) := by omega
    rw [show offset + 0 * 50 = offset by omega] at herr ⊢
    simp only [FortifyFoDProvider.fetchVulnsLoop, if_neg hlt, herr]
  | succ k ih =>
    intro acc offset fuel hfull herr hcap hfuel
    obtain ⟨f, rfl⟩ : ∃ f, fuel = f + 1 := ⟨fuel - 1, by omega⟩
    have hlt : ¬ (maxIssues ≤ acc.length) := by omega
    obtain ⟨page, items, hp, hitems, hlen50⟩ := hfull 0 (by omega)
    rw [show offset + 0 * 50 = offset by omega] at hp
    have hne : ¬ (items.length = 0) := by omega
    have hacc2 : (acc ++ items.map FortifyFoDProvider.mapFoDVulnToSecurityIssue).length
        = acc.length + 50 := by
      simp [hlen50]
    have hcap2 : ¬ (maxIssues ≤
        (acc ++ items.map FortifyFoDProvider.mapFoDVulnToSecurityIssue).length) := by
      rw [hacc2]; omega
    have hnotshort : ¬ (items.length < 50) := by omega
    simp only [FortifyFoDProvider.fetchVulnsLoop, if_neg hlt, hp, hitems, if_neg hne,
      if_neg hcap2, if_neg hnotshort]
    have hrec := ih (acc ++ items.map FortifyFoDProvider.mapFoDVulnToSecurityIssue)
      (offset + 50) f ?_ ?_ ?_ ?_
    · rw [hrec, show offset + 50 + k * 50 = offset + (k + 1) * 50 by ring]
    · intro i hi
      obtain ⟨pg, its, h1, h2, h3⟩ := hfull (i + 1) (by omega)
      rw [show offset + (i + 1) * 50 = offset + 50 + i * 50 by ring] at h1
      exact ⟨pg, its, h1, h2, h3⟩
    · rw [show offset + 50 + k * 50 = offset + (k + 1) * 50 by ring]
      exact herr
    · rw [hacc2]; omega
    · omega

/-- A successful FoD fetchReportData always carries the successful result
of fetchAllVulnerabilities as its issue list, with totalCount equal to its
length — in particular it never succeeds when the pagination failed. -/
theorem fod_fetchReportData_ok_shape (baseUrl appName appVersion scanDate : String)
    (appResp : Except String (Option (List FoDApplication)))
    (relResp : Nat → Except String (Option (List FoDRelease)))
    (pages : Nat → Except String (Option FoDVulnPage))
    (maxIssues : Nat) (rd : ReportData)
    (h : FortifyFoDProvider.fetchReportData baseUrl appName appVersion appResp relResp pages
        scanDate maxIssues = Except.ok rd) :
    ∃ l, FortifyFoDProvider.fetchAllVulnerabilities pages maxIssues = Except.ok l ∧
      rd.issues = l ∧ rd.totalCount = l.length := by
  simp only [FortifyFoDProvider.fetchReportData] at h
  split at h
  · exact absurd h (by simp)
  · exact absurd h (by simp)
  · split at h
    · exact absurd h (by simp)
    · split at h
      · exact absurd h (by simp)
      · split at h
        · exact absurd h (by simp)
        · exact absurd h (by simp)
        · split at h
          · exact absurd h (by simp)
          · split at h
            · exact absurd h (by simp)
            · split at h
              · exact absurd h (by simp)
              · rename_i allVulns heq
                injection h with h2
                subst h2
                exact ⟨allVulns, heq, rfl, rfl⟩

/-- A successful SSC fetchReportData always carries the successful result
of the issue pagination (for the selected filter-set guid) as its issue
list, with totalCount equal to its length. -/
theorem ssc_fetchReportData_ok_shape (baseUrl appName appVersion scanDate : String)
    (projResp : Except String (Option (List SSCNamedEntity)))
    (verResp : Nat → Except String (Option (List SSCNamedEntity)))
    (filterSetsResp : Nat → Except String (Option (List FilterSet)))
    (pages : String → Nat → Except String (Option (List SSCIssue)))
    (maxIssues : Nat) (rd : ReportData)
    (h : FortifySSCProvider.fetchReportData baseUrl appName appVersion projResp verResp
        filterSetsResp pages scanDate maxIssues = Except.ok rd) :
    ∃ guid l, FortifySSCProvider.fetchAllIssuesWithSecurityAuditorMapping (pages guid) maxIssues
        = Except.ok l ∧ rd.issues = l ∧ rd.totalCount = l.length := by
  simp only [FortifySSCProvider.fetchReportData] at h
  split at h
  · exact absurd h (by simp)
  · exact absurd h (by simp)
  · split at h
    · exact absurd h (by simp)
    · split at h
      · exact absurd h (by simp)
      · exact absurd h (by simp)
      · split at h
        · exact absurd h (by simp)
        · split at h
          · exact absurd h (by simp)
          · rename_i guid hguid
            split at h
            · exact absurd h (by simp)
            · rename_i allIssues heq
              injection h with h2
              subst h2
              exact ⟨guid, allIssues, heq, rfl, rfl⟩

/-- Claim C4: when the FoD page request at offset k*50 fails after k full
pages succeeded (and the cap is not yet reached), fetchAllVulnerabilities
returns exactly the offset-tagged error — whose message contains the
failing offset — and fetchReportData over the same page oracle can never
return a ReportData, so the issues accumulated from the earlier successful
pages are not surfaced as a truncated success. -/
theorem fod_page_failure_aborts_fetch
    (pages : Nat → Except String (Option FoDVulnPage)) (maxIssues k : Nat) (msg : String)
    (hfull : ∀ i, i < k → ∃ page items, pages (i * 50) = Except.ok (some page) ∧
        page.items = some items ∧ items.length = 50)
    (herr : pages (k * 50) = Except.error msg)
    (hcap : k * 50 < maxIssues) :
    (FortifyFoDProvider.fetchAllVulnerabilities pages maxIssues
      = Except.error (fodOffsetErrMsg (k * 50) msg))
  ∧ (∃ pre post, fodOffsetErrMsg (k * 50) msg = pre ++ toString (k * 50) ++ post)
  ∧ (∀ baseUrl appName appVersion scanDate appResp relResp rd,
      FortifyFoDProvider.fetchReportData baseUrl appName appVersion appResp relResp pages
        scanDate maxIssues ≠ Except.ok rd) := by
  have hk50 : k ≤ k * 50 := Nat.le_mul_of_pos_right k (by omega)
  have hloop := fetchVulnsLoop_error_propagates pages maxIssues msg k [] 0 (maxIssues + 1)
    (by intro i hi; simpa using hfull i hi)
    (by simpa using herr)
    (by simpa using hcap)
    (by omega)
  rw [Nat.zero_add] at hloop
  have hfetch : FortifyFoDProvider.fetchAllVulnerabilities pages maxIssues
      = Except.error (fodOffsetErrMsg (k * 50) msg) := by
    simp only [FortifyFoDProvider.fetchAllVulnerabilities, hloop, Except.map]
  refine ⟨hfetch, ?_, ?_⟩
  · refine ⟨("Failed to fetch vulnerabilities at offset "), (": ") ++ msg, ?_⟩
    simp only [fodOffsetErrMsg]
    rw [String.append_assoc]
  · intro baseUrl appName appVersion scanDate appResp relResp rd h
    obtain ⟨l, hl, -, -⟩ := fod_fetchReportData_ok_shape baseUrl appName appVersion scanDate
      appResp relResp pages maxIssues rd h
    rw [hfetch] at hl
    exact absurd hl (by simp)

/-- Witness for C4: one full page of 50 findings at offset 0, then a
rejected request at offset 50 with a cap of 100 — the fetch fails with the
offset-50 error. -/
theorem fod_page_failure_aborts_fetch_witness :
    (FortifyFoDProvider.fetchAllVulnerabilities cexPages 100
      = Except.error (fodOffsetErrMsg 50 ("boom")))
  ∧ (∃ pre post, fodOffsetErrMsg 50 ("boom") = pre ++ toString 50 ++ post) := by
  have h := fod_page_failure_aborts_fetch cexPages 100 1 ("boom")
    (by
      intro i hi
      have hi0 : i = 0 := by omega
      subst hi0
      exact ⟨⟨some (List.replicate 50 cexVuln), none⟩, List.replicate 50 cexVuln,
        rfl, rfl, by simp⟩)
    rfl
    (by omega)
  have h50 : (1 : Nat) * 50 = 50 := by omega
  rw [h50] at h
  exact ⟨h.1, h.2.1⟩

/-- Over a paged FoD backend holding strictly more findings than
maxIssues, the pagination loop (from any consistent state) succeeds with
at least maxIssues accumulated issues. -/
theorem fetchVulnsLoop_std_caps (all : List FoDVulnerability) (maxIssues : Nat)
    (hall : maxIssues < all.length) :
    ∀ (fuel : Nat) (acc : List SecurityIssue) (offset : Nat),
    acc.length = offset → offset ≤ all.length → maxIssues ≤ offset + 50 * fuel →
    ∃ res, FortifyFoDProvider.fetchVulnsLoop (stdFoDPages all) maxIssues fuel acc offset
        = Except.ok res ∧ maxIssues ≤ res.length := by
  intro fuel
  induction fuel with
  | zero =>
    intro acc offset hlen hle hcap
    exact ⟨acc, rfl, by omega⟩
  | succ f ih =>
    intro acc offset hlen hle hcap
    by_cases hstop : maxIssues ≤ acc.length
    · refine ⟨acc, ?_, hstop⟩
      simp only [FortifyFoDProvider.fetchVulnsLoop, if_pos hstop]
    · have hoff : offset < all.length := by omega
      have hitemslen : ((all.drop offset).take 50).length = min 50 (all.length - offset) := by
        simp [List.length_take, List.length_drop]
      have hminor : ((all.drop offset).take 50).length = 50 ∨
          ((all.drop offset).take 50).length = all.length - offset := by
        rcases Nat.le_total 50 (all.length - offset) with hc | hc
        · left; rw [hitemslen]; omega
        · right; rw [hitemslen]; omega
      have hpos : ¬ (((all.drop offset).take 50).length = 0) := by
        rw [hitemslen]; omega
      have hacc2len : (acc ++ ((all.drop offset).take 50).map
          FortifyFoDProvider.mapFoDVulnToSecurityIssue).length
          = offset + ((all.drop offset).take 50).length := by
        simp [hlen]
      by_cases hcap2 : maxIssues ≤ (acc ++ ((all.drop offset).take 50).map
          FortifyFoDProvider.mapFoDVulnToSecurityIssue).length
      · refine ⟨_, ?_, hcap2⟩
        simp only [FortifyFoDProvider.fetchVulnsLoop, if_neg hstop, stdFoDPages,
          if_neg hpos, if_pos hcap2]
      · have hfull50 : ((all.drop offset).take 50).length = 50 := by
          rcases hminor with hm | hm
          · exact hm
          · exfalso
            rw [hacc2len, hm] at hcap2
            omega
        have hnotshort : ¬ (((all.drop offset).take 50).length < 50) := by omega
        obtain ⟨res, hres, hreslen⟩ := ih (acc ++ ((all.drop offset).take 50).map
            FortifyFoDProvider.mapFoDVulnToSecurityIssue) (offset + 50)
          (by rw [hacc2len, hfull50])
          (by rw [hitemslen] at hfull50; omega)
          (by omega)
        refine ⟨res, ?_, hreslen⟩
        simp only [FortifyFoDProvider.fetchVulnsLoop, if_neg hstop, stdFoDPages,
          if_neg hpos, if_neg hcap2, if_neg hnotshort]
        exact hres

/-- Over a paged SSC backend holding strictly more issues than maxIssues,
the pagination loop (from any consistent state) succeeds with at least
maxIssues accumulated issues. -/
theorem fetchIssuesLoop_std_caps (all : List SSCIssue) (maxIssues : Nat)
    (hall : maxIssues < all.length) :
    ∀ (fuel : Nat) (acc : List SecurityIssue) (start : Nat),
    acc.length = start → start ≤ all.length → maxIssues ≤ start + 100 * fuel →
    ∃ res, FortifySSCProvider.fetchIssuesLoop (stdSSCPages all) maxIssues fuel acc start
        = Except.ok res ∧ maxIssues ≤ res.length := by
  intro fuel
  induction fuel with
  | zero =>
    intro acc start hlen hle hcap
    exact ⟨acc, rfl, by omega⟩
  | succ f ih =>
    intro acc start hlen hle hcap
    by_cases hstop : maxIssues ≤ acc.length
    · refine ⟨acc, ?_, hstop⟩
      simp only [FortifySSCProvider.fetchIssuesLoop, if_pos hstop]
    · have hoff : start < all.length := by omega
      have hitemslen : ((all.drop start).take 100).length = min 100 (all.length - start) := by
        simp [List.length_take, List.length_drop]
      have hminor : ((all.drop start).take 100).length = 100 ∨
          ((all.drop start).take 100).length = all.length - start := by
        rcases Nat.le_total 100 (all.length - start) with hc | hc
        · left; rw [hitemslen]; omega
        · right; rw [hitemslen]; omega
      have hpos : ¬ (((all.drop start).take 100).length = 0) := by
        rw [hitemslen]; omega
      have hacc2len : (acc ++ ((all.drop start).take 100).map
          FortifySSCProvider.mapSSCIssueToSecurityIssue).length
          = start + ((all.drop start).take 100).length := by
        simp [hlen]
      by_cases hcap2 : maxIssues ≤ (acc ++ ((all.drop start).take 100).map
          FortifySSCProvider.mapSSCIssueToSecurityIssue).length
      · refine ⟨_, ?_, hcap2⟩
        simp only [FortifySSCProvider.fetchIssuesLoop, if_neg hstop, stdSSCPages,
          if_neg hpos, if_pos hcap2]
      · have hfull100 : ((all.drop start).take 100).length = 100 := by
          rcases hminor with hm | hm
          · exact hm
          · exfalso
            rw [hacc2len, hm] at hcap2
            omega
        have hnotshort : ¬ (((all.drop start).take 100).length < 100) := by omega
        obtain ⟨res, hres, hreslen⟩ := ih (acc ++ ((all.drop start).take 100).map
            FortifySSCProvider.mapSSCIssueToSecurityIssue) (start + 100)
          (by rw [hacc2len, hfull100])
          (by rw [hitemslen] at hfull100; omega)
          (by omega)
        refine ⟨res, ?_, hreslen⟩
        simp only [FortifySSCProvider.fetchIssuesLoop, if_neg hstop, stdSSCPages,
          if_neg hpos, if_neg hcap2, if_neg hnotshort]
        exact hres

/-- Claim C5: over a paged backend holding strictly more findings than
maxIssues, both providers fetch exactly maxIssues issues — the pagination
succeeds with a result of length exactly maxIssues, and any successful
fetchReportData over that backend carries an issues list of length
maxIssues with totalCount equal to the same capped value; the unspecified
maxIssues default of both fetchReportData signatures is 10000. -/
theorem max_issues_cap (allF : List FoDVulnerability) (allS : List SSCIssue)
    (maxIssues : Nat) (hF : maxIssues < allF.length) (hS : maxIssues < allS.length) :
    (∃ res, FortifyFoDProvider.fetchAllVulnerabilities (stdFoDPages allF) maxIssues
        = Except.ok res ∧ res.length = maxIssues)
  ∧ (∃ res, FortifySSCProvider.fetchAllIssuesWithSecurityAuditorMapping (stdSSCPages allS)
        maxIssues = Except.ok res ∧ res.length = maxIssues)
  ∧ (∀ baseUrl appName appVersion scanDate appResp relResp rd,
      FortifyFoDProvider.fetchReportData baseUrl appName appVersion appResp relResp
        (stdFoDPages allF) scanDate maxIssues = Except.ok rd →
      rd.issues.length = maxIssues ∧ rd.totalCount = maxIssues)
  ∧ (∀ baseUrl appName appVersion scanDate projResp verResp filterSetsResp rd,
      FortifySSCProvider.fetchReportData baseUrl appName appVersion projResp verResp
        filterSetsResp (fun _ => stdSSCPages allS) scanDate maxIssues = Except.ok rd →
      rd.issues.length = maxIssues ∧ rd.totalCount = maxIssues)
  ∧ (defaultMaxIssues = 10000) := by
  obtain ⟨resF, hresF, hlenF⟩ := fetchVulnsLoop_std_caps allF maxIssues hF
    (maxIssues + 1) [] 0 rfl (by omega) (by omega)
  have hcapF : FortifyFoDProvider.fetchAllVulnerabilities (stdFoDPages allF) maxIssues
      = Except.ok (resF.take maxIssues) := by
    simp only [FortifyFoDProvider.fetchAllVulnerabilities, hresF, Except.map]
  have htakeF : (resF.take maxIssues).length = maxIssues := by
    simp [List.length_take]
    omega
  obtain ⟨resS, hresS, hlenS⟩ := fetchIssuesLoop_std_caps allS maxIssues hS
    (maxIssues + 1) [] 0 rfl (by omega) (by omega)
  have hcapS : FortifySSCProvider.fetchAllIssuesWithSecurityAuditorMapping (stdSSCPages allS)
      maxIssues = Except.ok (resS.take maxIssues) := by
    simp only [FortifySSCProvider.fetchAllIssuesWithSecurityAuditorMapping, hresS, Except.map]
  have htakeS : (resS.take maxIssues).length = maxIssues := by
    simp [List.length_take]
    omega
  refine ⟨⟨resF.take maxIssues, hcapF, htakeF⟩, ⟨resS.take maxIssues, hcapS, htakeS⟩,
          ?_, ?_, rfl⟩
  · intro baseUrl appName appVersion scanDate appResp relResp rd h
    obtain ⟨l, hl, hiss, htot⟩ := fod_fetchReportData_ok_shape baseUrl appName appVersion
      scanDate appResp relResp (stdFoDPages allF) maxIssues rd h
    rw [hcapF] at hl
    injection hl with hl2
    subst hl2
    exact ⟨by rw [hiss, htakeF], by rw [htot, htakeF]⟩
  · intro baseUrl appName appVersion scanDate projResp verResp filterSetsResp rd h
    obtain ⟨guid, l, hl, hiss, htot⟩ := ssc_fetchReportData_ok_shape baseUrl appName appVersion
      scanDate projResp verResp filterSetsResp (fun _ => stdSSCPages allS) maxIssues rd h
    rw [hcapS] at hl
    injection hl with hl2
    subst hl2
    exact ⟨by rw [hiss, htakeS], by rw [htot, htakeS]⟩

/-- Witness for C5: backends of 4 findings with a cap of 3 — both
providers fetch exactly 3. -/
theorem max_issues_cap_witness :
    (∃ res, FortifyFoDProvider.fetchAllVulnerabilities (stdFoDPages cexFoDFindings) 3
        = Except.ok res ∧ res.length = 3)
  ∧ (∃ res, FortifySSCProvider.fetchAllIssuesWithSecurityAuditorMapping
        (stdSSCPages cexSSCFindings) 3 = Except.ok res ∧ res.length = 3)
  ∧ (defaultMaxIssues = 10000) := by
  obtain ⟨a, b, -, -, e⟩ := max_issues_cap cexFoDFindings cexSSCFindings 3
    (by simp [cexFoDFindings]) (by simp [cexSSCFindings])
  exact ⟨a, b, e⟩
